import Mathlib

/-!
Shallow embedding of `tools/visual.py`: two matplotlib helper functions,
`plot` and `plot_homotopy`.  Real numbers are modelled by `ℚ`, complex
numbers by pairs `(re, im) : ℚ × ℚ`.  A matplotlib `Axes` object is
modelled as a record of the drawn line elements plus the pieces of axis
state the code touches (x-limits, aspect, axis labels).  Keyword style
arguments (`**kwargs`) are an association list of strings, forwarded
verbatim.  The module-level palette `colors = mpl.rcParams[...]` is
threaded as an explicit first argument to each function, modelling the
module global; as in the source, neither function body consults it.
-/

/-- A complex number, as a pair (real part, imaginary part). -/
abbrev Cx := ℚ × ℚ

/-- Keyword style arguments forwarded verbatim to the drawing primitive. -/
abbrev Kwargs := List (String × String)

/-- A drawn element on an axes: a data line (from `ax.plot`) or a
horizontal line (from `ax.hlines`, carrying y, xmin, xmax). -/
inductive Elem where
  | line (xs ys : List ℚ) (kw : Kwargs)
  | hline (y xmin xmax : ℚ) (kw : Kwargs)
  deriving DecidableEq

/-- The x-data contributed by an element, used for x autoscaling. -/
def Elem.xvals : Elem → List ℚ
  | .line xs _ _ => xs
  | .hline _ lo hi _ => [lo, hi]

/-- A matplotlib axes: accumulated drawn elements plus the axis state the
source code reads or writes.  Fresh axes have matplotlib's default
x-limits (0, 1), default aspect and no labels. -/
structure Axes where
  elems : List Elem := []
  xlo : ℚ := 0
  xhi : ℚ := 1
  aspect : Option String := none
  xlabel : Option String := none
  ylabel : Option String := none
  deriving DecidableEq

/-- matplotlib x autoscaling: the data range of all drawn x-data expanded
by the default 5% margin on each side (old limits kept when no data). -/
def autoXlim (xs : List ℚ) (xlo xhi : ℚ) : ℚ × ℚ :=
  match xs with
  | [] => (xlo, xhi)
  | x :: rest =>
    let lo := rest.foldl min x
    let hi := rest.foldl max x
    let m := if lo = hi then (1 : ℚ) / 20 else (hi - lo) / 20
    (lo - m, hi + m)

/-- Recompute the x-limits from drawn data (matplotlib autoscale). -/
def Axes.autoscaleX (ax : Axes) : Axes :=
  let lim := autoXlim ((ax.elems.map Elem.xvals).flatten) ax.xlo ax.xhi
  { ax with xlo := lim.1, xhi := lim.2 }

/-- `ax.plot(xs, ys, **kw)`: append a line element and autoscale. -/
def Axes.plot (ax : Axes) (xs ys : List ℚ) (kw : Kwargs) : Axes :=
  Axes.autoscaleX { ax with elems := ax.elems ++ [Elem.line xs ys kw] }

/-- `ax.hlines(y, xmin, xmax, **kw)`: append a horizontal line element. -/
def Axes.hlines (ax : Axes) (y xmin xmax : ℚ) (kw : Kwargs) : Axes :=
  { ax with elems := ax.elems ++ [Elem.hline y xmin xmax kw] }

/-- `ax.get_xlim()`. -/
def Axes.get_xlim (ax : Axes) : ℚ × ℚ := (ax.xlo, ax.xhi)

/-- `ax.set_aspect(a)`. -/
def Axes.set_aspect (ax : Axes) (a : String) : Axes := { ax with aspect := some a }

/-- `ax.set_xlabel(s)`. -/
def Axes.set_xlabel (ax : Axes) (s : String) : Axes := { ax with xlabel := some s }

/-- `ax.set_ylabel(s)`. -/
def Axes.set_ylabel (ax : Axes) (s : String) : Axes := { ax with ylabel := some s }

/-- `np.linspace(x0, x1, N)` with the default `endpoint=True`: `N` evenly
spaced samples from `x0` to `x1`; for `N = 1` numpy returns `[x0]`. -/
def linspace (x0 x1 : ℚ) (N : ℕ) : List ℚ :=
  if N = 0 then []
  else if N = 1 then [x0]
  else (List.range N).map fun i : ℕ => x0 + (x1 - x0) * (i : ℚ) / ((N - 1 : ℕ) : ℚ)

/-- Result of `plot`: the mutated (or fresh) axes, and whether a new
figure/axes pair was created by `plt.subplots()`. -/
structure PlotResult where
  ax : Axes
  created : Bool
  deriving DecidableEq

/-- The style of the dashed zero reference line in `plot`:
`color='k', linestyle='--', linewidth=1, zorder=-1` (zorder -1 places it
behind the default-zorder content). -/
def zeroLineKw : Kwargs :=
  [("color", "k"), ("linestyle", "--"), ("linewidth", "1"), ("zorder", "-1")]

/-- `plot(f, x0, x1, N=100, ax=None, zero=None, **kwargs)` from
`tools/visual.py`.  `f` is the caller's vectorized function: it receives
the whole sample grid in one call.  `colors` is the module-level palette
(unused by the body, as in the source). -/
def plot (colors : List String) (f : List ℚ → List ℚ) (x0 x1 : ℚ) (N : ℕ)
    (ax? : Option Axes) (zero : Option ℚ) (kwargs : Kwargs) : PlotResult :=
  let created := ax?.isNone
  let ax := ax?.getD {}
  let x := linspace x0 x1 N
  let y := f x
  let ax := ax.plot x y kwargs
  let ax := match zero with
    | none => ax
    | some z => ax.hlines z ax.get_xlim.1 ax.get_xlim.2 zeroLineKw
  ⟨ax, created⟩

/-- A Python array-like argument to `plot_homotopy`: either a plain Python
list (which has no `.real`/`.imag` attributes) or a numpy-style array of
complex values (which has both). -/
inductive PyArr where
  | pylist (xs : List Cx)
  | nparray (xs : List Cx)
  deriving DecidableEq

/-- The underlying entries. -/
def PyArr.toList : PyArr → List Cx
  | .pylist xs => xs
  | .nparray xs => xs

/-- Attribute access `a.real`: `none` models an `AttributeError`. -/
def PyArr.real : PyArr → Option (List ℚ)
  | .pylist _ => none
  | .nparray xs => some (xs.map Prod.fst)

/-- Attribute access `a.imag`: `none` models an `AttributeError`. -/
def PyArr.imag : PyArr → Option (List ℚ)
  | .pylist _ => none
  | .nparray xs => some (xs.map Prod.snd)

/-- matplotlib coerces y-data to floats when a raw value is passed (as
`ppath` is for the reference curves); complex entries are cast to their
real parts. -/
def PyArr.asFloats (a : PyArr) : List ℚ := a.toList.map Prod.fst

/-- The style of the dashed reference curves in `plot_homotopy`:
`linewidth=1, color='k', linestyle='--'`. -/
def refKw : Kwargs := [("linewidth", "1"), ("color", "k"), ("linestyle", "--")]

/-- Result of `plot_homotopy`: the two panels, whether a fresh pair of
panels was created, and whether an `AttributeError` propagated (in which
case the panels hold whatever was drawn before the error). -/
structure PHResult where
  axs0 : Axes
  axs1 : Axes
  created : Bool
  err : Bool
  deriving DecidableEq

/-- The pair of panels the call starts from: the caller's, or a fresh
side-by-side pair from `plt.subplots(ncols=2, ...)`. -/
def initAxs (axs? : Option (Axes × Axes)) : Axes × Axes := axs?.getD ({}, {})

/-- The panels after the optional `rzero` / `czero` dashed reference
curves are drawn (`axs[0].plot(rzero, ppath, ...)` and symmetrically),
before the solution-curve loop runs. -/
def afterRefs (axs? : Option (Axes × Axes)) (ppath : PyArr)
    (rzero czero : Option (List ℚ)) : Axes × Axes :=
  let axs := initAxs axs?
  let a0 := match rzero with
    | none => axs.1
    | some r => axs.1.plot r ppath.asFloats refKw
  let a1 := match czero with
    | none => axs.2
    | some c => axs.2.plot c ppath.asFloats refKw
  (a0, a1)

/-- One pass of the loop body:
`axs[0].plot(xp.real, ppath.real)` then `axs[1].plot(xp.imag, ppath.real)`,
with Python's left-to-right evaluation of the attribute accesses; a failed
access raises `AttributeError`, modelled as `.error` carrying the panels
as drawn so far. -/
def drawSolution (ppath : PyArr) (a0 a1 : Axes) (xp : PyArr) :
    Except (Axes × Axes) (Axes × Axes) :=
  match xp.real, ppath.real with
  | none, _ => .error (a0, a1)
  | some _, none => .error (a0, a1)
  | some xr, some pr =>
    let a0 := a0.plot xr pr []
    match xp.imag, ppath.real with
    | none, _ => .error (a0, a1)
    | some _, none => .error (a0, a1)
    | some xi, some pr2 => .ok (a0, a1.plot xi pr2 [])

/-- The `for xp in xpaths` loop of `plot_homotopy`. -/
def drawSolutions (ppath : PyArr) :
    Axes → Axes → List PyArr → Except (Axes × Axes) (Axes × Axes)
  | a0, a1, [] => .ok (a0, a1)
  | a0, a1, xp :: rest =>
    match drawSolution ppath a0 a1 xp with
    | .error s => .error s
    | .ok s => drawSolutions ppath s.1 s.2 rest

/-- `plot_homotopy(ppath, xpaths, rzero=None, czero=None, equal=True,
axs=None)` from `tools/visual.py`.  `colors` is the module-level palette
(unused by the body, as in the source).  On an `AttributeError` in the
loop the exception propagates: the aspect and label statements do not
run. -/
def plot_homotopy (colors : List String) (ppath : PyArr) (xpaths : List PyArr)
    (rzero czero : Option (List ℚ)) (equal : Bool)
    (axs? : Option (Axes × Axes)) : PHResult :=
  let created := axs?.isNone
  let axs := afterRefs axs? ppath rzero czero
  match drawSolutions ppath axs.1 axs.2 xpaths with
  | .error s => ⟨s.1, s.2, created, true⟩
  | .ok s =>
    let b0 := if equal then s.1.set_aspect "equal" else s.1
    let b1 := if equal then s.2.set_aspect "equal" else s.2
    let b0 := b0.set_xlabel "Solution (Real)"
    let b1 := b1.set_xlabel "Solution (Imaginary)"
    let b0 := b0.set_ylabel "Parameter"
    ⟨b0, b1, created, false⟩

/-! ### Helper lemmas -/

theorem Axes.plot_elems (ax : Axes) (xs ys : List ℚ) (kw : Kwargs) :
    (Axes.plot ax xs ys kw).elems = ax.elems ++ [Elem.line xs ys kw] := rfl

theorem Axes.plot_aspect (ax : Axes) (xs ys : List ℚ) (kw : Kwargs) :
    (Axes.plot ax xs ys kw).aspect = ax.aspect := rfl

theorem Axes.plot_xlabel (ax : Axes) (xs ys : List ℚ) (kw : Kwargs) :
    (Axes.plot ax xs ys kw).xlabel = ax.xlabel := rfl

theorem Axes.plot_ylabel (ax : Axes) (xs ys : List ℚ) (kw : Kwargs) :
    (Axes.plot ax xs ys kw).ylabel = ax.ylabel := rfl

theorem afterRefs_fields (axs? : Option (Axes × Axes)) (p : PyArr)
    (rz cz : Option (List ℚ)) :
    (afterRefs axs? p rz cz).1.aspect = (initAxs axs?).1.aspect
    ∧ (afterRefs axs? p rz cz).2.aspect = (initAxs axs?).2.aspect
    ∧ (afterRefs axs? p rz cz).1.xlabel = (initAxs axs?).1.xlabel
    ∧ (afterRefs axs? p rz cz).2.xlabel = (initAxs axs?).2.xlabel
    ∧ (afterRefs axs? p rz cz).1.ylabel = (initAxs axs?).1.ylabel
    ∧ (afterRefs axs? p rz cz).2.ylabel = (initAxs axs?).2.ylabel := by
  cases rz <;> cases cz <;> exact ⟨rfl, rfl, rfl, rfl, rfl, rfl⟩

theorem drawSolution_pylist_xp (p : PyArr) (a0 a1 : Axes) (b : List Cx) :
    drawSolution p a0 a1 (PyArr.pylist b) = Except.error (a0, a1) := rfl

theorem drawSolution_pylist_pp (l : List Cx) (a0 a1 : Axes) (xs : List Cx) :
    drawSolution (PyArr.pylist l) a0 a1 (PyArr.nparray xs) = Except.error (a0, a1) := rfl

theorem drawSolution_nparray (l : List Cx) (a0 a1 : Axes) (xs : List Cx) :
    drawSolution (PyArr.nparray l) a0 a1 (PyArr.nparray xs) =
      Except.ok (a0.plot (xs.map Prod.fst) (l.map Prod.fst) [],
                 a1.plot (xs.map Prod.snd) (l.map Prod.fst) []) := rfl

theorem drawSolutions_nparray (l : List Cx) :
    ∀ (xpl : List (List Cx)) (a0 a1 : Axes), ∃ b0 b1,
      drawSolutions (PyArr.nparray l) a0 a1 (xpl.map PyArr.nparray) = Except.ok (b0, b1)
      ∧ b0.elems = a0.elems ++ xpl.map (fun xs => Elem.line (xs.map Prod.fst) (l.map Prod.fst) [])
      ∧ b1.elems = a1.elems ++ xpl.map (fun xs => Elem.line (xs.map Prod.snd) (l.map Prod.fst) []) := by
  intro xpl
  induction xpl with
  | nil => intro a0 a1; exact ⟨a0, a1, rfl, by simp, by simp⟩
  | cons xs xpl ih =>
    intro a0 a1
    obtain ⟨b0, b1, hds, h0, h1⟩ :=
      ih (a0.plot (xs.map Prod.fst) (l.map Prod.fst) [])
         (a1.plot (xs.map Prod.snd) (l.map Prod.fst) [])
    refine ⟨b0, b1, ?_, ?_, ?_⟩
    · simpa [drawSolutions, drawSolution_nparray] using hds
    · simp [h0, Axes.plot_elems]
    · simp [h1, Axes.plot_elems]

theorem drawSolution_ok_fields (p : PyArr) (a0 a1 : Axes) (xp : PyArr)
    (s : Axes × Axes) (h : drawSolution p a0 a1 xp = Except.ok s) :
    s.1.aspect = a0.aspect ∧ s.2.aspect = a1.aspect
    ∧ s.1.xlabel = a0.xlabel ∧ s.2.xlabel = a1.xlabel
    ∧ s.1.ylabel = a0.ylabel ∧ s.2.ylabel = a1.ylabel := by
  cases xp with
  | pylist b => simp [drawSolution_pylist_xp] at h
  | nparray xs =>
    cases p with
    | pylist l => simp [drawSolution_pylist_pp] at h
    | nparray l =>
      rw [drawSolution_nparray] at h
      injection h with h2
      subst h2
      exact ⟨rfl, rfl, rfl, rfl, rfl, rfl⟩

theorem drawSolutions_ok_fields (p : PyArr) :
    ∀ (xps : List PyArr) (a0 a1 b0 b1 : Axes),
      drawSolutions p a0 a1 xps = Except.ok (b0, b1) →
      b0.aspect = a0.aspect ∧ b1.aspect = a1.aspect
      ∧ b0.xlabel = a0.xlabel ∧ b1.xlabel = a1.xlabel
      ∧ b0.ylabel = a0.ylabel ∧ b1.ylabel = a1.ylabel := by
  intro xps
  induction xps with
  | nil =>
    intro a0 a1 b0 b1 h
    simp only [drawSolutions, Except.ok.injEq, Prod.mk.injEq] at h
    obtain ⟨rfl, rfl⟩ := h
    exact ⟨rfl, rfl, rfl, rfl, rfl, rfl⟩
  | cons xp rest ih =>
    intro a0 a1 b0 b1 h
    simp only [drawSolutions] at h
    cases hd : drawSolution p a0 a1 xp with
    | error s => rw [hd] at h; exact absurd h (by simp)
    | ok s =>
      rw [hd] at h
      obtain ⟨e0, e1, e2, e3, e4, e5⟩ := drawSolution_ok_fields p a0 a1 xp s hd
      obtain ⟨f0, f1, f2, f3, f4, f5⟩ := ih s.1 s.2 b0 b1 h
      exact ⟨f0.trans e0, f1.trans e1, f2.trans e2, f3.trans e3, f4.trans e4, f5.trans e5⟩

theorem drawSolutions_pylist_pp (l : List Cx) (xp : PyArr) (rest : List PyArr)
    (a0 a1 : Axes) :
    drawSolutions (PyArr.pylist l) a0 a1 (xp :: rest) = Except.error (a0, a1) := by
  cases xp <;> rfl

theorem drawSolutions_bad_entry (l : List Cx) :
    ∀ (pre : List (List Cx)) (b : List Cx) (rest : List PyArr) (a0 a1 : Axes), ∃ b0 b1,
      drawSolutions (PyArr.nparray l) a0 a1
          (pre.map PyArr.nparray ++ PyArr.pylist b :: rest) = Except.error (b0, b1)
      ∧ b0.elems = a0.elems ++ pre.map (fun xs => Elem.line (xs.map Prod.fst) (l.map Prod.fst) [])
      ∧ b1.elems = a1.elems ++ pre.map (fun xs => Elem.line (xs.map Prod.snd) (l.map Prod.fst) []) := by
  intro pre
  induction pre with
  | nil =>
    intro b rest a0 a1
    refine ⟨a0, a1, ?_, by simp, by simp⟩
    simp [drawSolutions, drawSolution_pylist_xp]
  | cons xs pre ih =>
    intro b rest a0 a1
    obtain ⟨b0, b1, hds, h0, h1⟩ :=
      ih b rest (a0.plot (xs.map Prod.fst) (l.map Prod.fst) [])
                (a1.plot (xs.map Prod.snd) (l.map Prod.fst) [])
    refine ⟨b0, b1, ?_, ?_, ?_⟩
    · simpa [drawSolutions, drawSolution_nparray] using hds
    · simp [h0, Axes.plot_elems]
    · simp [h1, Axes.plot_elems]

theorem drawSolution_congr (p q : PyArr) (h : p.real = q.real)
    (a0 a1 : Axes) (xp : PyArr) :
    drawSolution p a0 a1 xp = drawSolution q a0 a1 xp := by
  unfold drawSolution
  rw [h]

theorem drawSolutions_congr (p q : PyArr) (h : p.real = q.real) :
    ∀ (xps : List PyArr) (a0 a1 : Axes),
      drawSolutions p a0 a1 xps = drawSolutions q a0 a1 xps := by
  intro xps
  induction xps with
  | nil => intro a0 a1; rfl
  | cons xp rest ih =>
    intro a0 a1
    simp only [drawSolutions]
    rw [drawSolution_congr p q h a0 a1 xp]
    cases drawSolution q a0 a1 xp with
    | error s => rfl
    | ok s => exact ih s.1 s.2

theorem linspace_getElem (x0 x1 : ℚ) (N i : ℕ) (hN : 2 ≤ N) (hi : i < N) :
    (linspace x0 x1 N)[i]? = some (x0 + (x1 - x0) * i / ((N : ℚ) - 1)) := by
  have h0 : ¬ N = 0 := by omega
  have h1 : ¬ N = 1 := by omega
  have hc : ((N - 1 : ℕ) : ℚ) = (N : ℚ) - 1 := by
    push_cast [Nat.cast_sub (by omega : 1 ≤ N)]
    ring
  simp only [linspace, if_neg h0, if_neg h1]
  rw [List.getElem?_map, List.getElem?_range hi]
  simp [hc]

/-! ### Claim theorems -/

/-- C1 (amended): for real bounds `x0 < x1` and every integer `N ≥ 2`,
`plot` builds a grid of exactly `N` evenly spaced points spanning
`[x0, x1]` inclusive of both endpoints, applies `f` once to the whole
grid (the drawn y-data is `f` of the whole grid, one vectorized call),
and draws the resulting `(x, f(x))` curve with the caller's style
options.  (For `N = 1` the grid is the single point `[x0]`, see the
counterexample.) -/
theorem C1_theorem (colors : List String) (f : List ℚ → List ℚ) (x0 x1 : ℚ)
    (N : ℕ) (ax? : Option Axes) (zero : Option ℚ) (kwargs : Kwargs)
    (hN : 2 ≤ N) (hx : x0 < x1) :
    (linspace x0 x1 N).length = N
    ∧ (linspace x0 x1 N)[0]? = some x0
    ∧ (linspace x0 x1 N)[N - 1]? = some x1
    ∧ (∀ i, i + 1 < N → ∃ a b, (linspace x0 x1 N)[i]? = some a
        ∧ (linspace x0 x1 N)[i + 1]? = some b ∧ b - a = (x1 - x0) / ((N : ℚ) - 1))
    ∧ Elem.line (linspace x0 x1 N) (f (linspace x0 x1 N)) kwargs
        ∈ (plot colors f x0 x1 N ax? zero kwargs).ax.elems := by
  have hd : (N : ℚ) - 1 ≠ 0 := by
    have : (2 : ℚ) ≤ (N : ℚ) := by exact_mod_cast hN
    intro hc
    linarith
  refine ⟨?_, ?_, ?_, ?_, ?_⟩
  · have h0 : ¬ N = 0 := by omega
    have h1 : ¬ N = 1 := by omega
    simp [linspace, if_neg h0, if_neg h1]
  · rw [linspace_getElem x0 x1 N 0 hN (by omega)]
    norm_num
  · rw [linspace_getElem x0 x1 N (N - 1) hN (by omega)]
    have hc : ((N - 1 : ℕ) : ℚ) = (N : ℚ) - 1 := by
      push_cast [Nat.cast_sub (by omega : 1 ≤ N)]
      ring
    rw [hc]
    congr 1
    field_simp
  · intro i hi
    refine ⟨_, _, linspace_getElem x0 x1 N i hN (by omega),
            linspace_getElem x0 x1 N (i + 1) hN (by omega), ?_⟩
    push_cast
    field_simp
    ring
  · cases zero <;> simp [plot, Axes.hlines, Axes.plot_elems]

/-- C1 counterexample: the claim as stated fails for the positive integer
`N = 1` with bounds `0 < 1`: `np.linspace(0, 1, 1)` is the single point
`[0]`, so the grid does not include the endpoint `1`, and the drawn curve
has one point, not a curve spanning `[0, 1]`. -/
theorem C1_counterexample :
    (0 : ℚ) < 1 ∧ 0 < (1 : ℕ)
    ∧ linspace 0 1 1 = [0]
    ∧ (plot [] (fun v => v) 0 1 1 none none []).ax.elems = [Elem.line [0] [0] []]
    ∧ ¬ (1 : ℚ) ∈ linspace 0 1 1 := by decide

/-- C1 witness: the amended theorem instantiated at `f = id`, bounds
`0 < 1`, `N = 2`. -/
theorem C1_witness :
    (linspace 0 1 2).length = 2
    ∧ (linspace 0 1 2)[0]? = some 0
    ∧ (linspace 0 1 2)[2 - 1]? = some 1
    ∧ (∀ i, i + 1 < 2 → ∃ a b, (linspace 0 1 2)[i]? = some a
        ∧ (linspace 0 1 2)[i + 1]? = some b ∧ b - a = (1 - 0) / (((2 : ℕ) : ℚ) - 1))
    ∧ Elem.line (linspace 0 1 2) ((fun v => v) (linspace 0 1 2)) []
        ∈ (plot [] (fun v => v) 0 1 2 none none []).ax.elems :=
  C1_theorem [] (fun v => v) 0 1 2 none none [] (by norm_num) (by norm_num)

/-- C4: with `zero = some z`, `plot` appends after the main curve exactly
one horizontal line at y-value `z`, spanning the axes x-limits as they
stand after the main curve is drawn (autoscaled), styled dashed black
with `zorder=-1` (behind default-zorder content); with `zero = none` no
such line is appended. -/
theorem C4_theorem (colors : List String) (f : List ℚ → List ℚ) (x0 x1 : ℚ)
    (N : ℕ) (ax? : Option Axes) (kwargs : Kwargs) (z : ℚ) :
    (plot colors f x0 x1 N ax? (some z) kwargs).ax.elems
      = ((ax?.getD {}).plot (linspace x0 x1 N) (f (linspace x0 x1 N)) kwargs).elems
        ++ [Elem.hline z
              ((ax?.getD {}).plot (linspace x0 x1 N) (f (linspace x0 x1 N)) kwargs).get_xlim.1
              ((ax?.getD {}).plot (linspace x0 x1 N) (f (linspace x0 x1 N)) kwargs).get_xlim.2
              [("color", "k"), ("linestyle", "--"), ("linewidth", "1"), ("zorder", "-1")]]
    ∧ (plot colors f x0 x1 N ax? none kwargs).ax.elems
      = ((ax?.getD {}).plot (linspace x0 x1 N) (f (linspace x0 x1 N)) kwargs).elems :=
  ⟨rfl, rfl⟩

/-- C5: `plot` with a caller-supplied axes does not create a new one and
all drawing lands on the supplied axes (its element list is extended);
with no axes supplied, exactly one new figure/axes pair is created. -/
theorem C5_theorem (colors : List String) (f : List ℚ → List ℚ) (x0 x1 : ℚ)
    (N : ℕ) (zero : Option ℚ) (kwargs : Kwargs) (ax : Axes) :
    (plot colors f x0 x1 N (some ax) zero kwargs).created = false
    ∧ (∃ tail, (plot colors f x0 x1 N (some ax) zero kwargs).ax.elems = ax.elems ++ tail)
    ∧ (plot colors f x0 x1 N none zero kwargs).created = true := by
  refine ⟨rfl, ?_, rfl⟩
  cases zero with
  | none =>
    exact ⟨[Elem.line (linspace x0 x1 N) (f (linspace x0 x1 N)) kwargs],
           by simp [plot, Axes.plot_elems]⟩
  | some z =>
    refine ⟨[Elem.line (linspace x0 x1 N) (f (linspace x0 x1 N)) kwargs,
             Elem.hline z
               (Axes.plot ax (linspace x0 x1 N) (f (linspace x0 x1 N)) kwargs).get_xlim.1
               (Axes.plot ax (linspace x0 x1 N) (f (linspace x0 x1 N)) kwargs).get_xlim.2
               zeroLineKw], ?_⟩
    simp [plot, Axes.plot_elems, Axes.hlines]

/-- C10: neither `plot` nor `plot_homotopy` reads the module-level
`colors` palette: for any two palette values, every call yields the same
result. -/
theorem C10_theorem (c1 c2 : List String) (f : List ℚ → List ℚ) (x0 x1 : ℚ)
    (N : ℕ) (ax? : Option Axes) (zero : Option ℚ) (kwargs : Kwargs)
    (ppath : PyArr) (xpaths : List PyArr) (rz cz : Option (List ℚ))
    (equal : Bool) (axs? : Option (Axes × Axes)) :
    plot c1 f x0 x1 N ax? zero kwargs = plot c2 f x0 x1 N ax? zero kwargs
    ∧ plot_homotopy c1 ppath xpaths rz cz equal axs?
        = plot_homotopy c2 ppath xpaths rz cz equal axs? :=
  ⟨rfl, rfl⟩

theorem Axes.set_aspect_elems (ax : Axes) (a : String) : (ax.set_aspect a).elems = ax.elems := rfl

theorem Axes.set_aspect_aspect (ax : Axes) (a : String) : (ax.set_aspect a).aspect = some a := rfl

theorem Axes.set_aspect_xlabel (ax : Axes) (a : String) : (ax.set_aspect a).xlabel = ax.xlabel := rfl

theorem Axes.set_aspect_ylabel (ax : Axes) (a : String) : (ax.set_aspect a).ylabel = ax.ylabel := rfl

theorem Axes.set_xlabel_elems (ax : Axes) (s : String) : (ax.set_xlabel s).elems = ax.elems := rfl

theorem Axes.set_xlabel_aspect (ax : Axes) (s : String) : (ax.set_xlabel s).aspect = ax.aspect := rfl

theorem Axes.set_xlabel_xlabel (ax : Axes) (s : String) : (ax.set_xlabel s).xlabel = some s := rfl

theorem Axes.set_xlabel_ylabel (ax : Axes) (s : String) : (ax.set_xlabel s).ylabel = ax.ylabel := rfl

theorem Axes.set_ylabel_elems (ax : Axes) (s : String) : (ax.set_ylabel s).elems = ax.elems := rfl

theorem Axes.set_ylabel_aspect (ax : Axes) (s : String) : (ax.set_ylabel s).aspect = ax.aspect := rfl

theorem Axes.set_ylabel_xlabel (ax : Axes) (s : String) : (ax.set_ylabel s).xlabel = ax.xlabel := rfl

theorem Axes.set_ylabel_ylabel (ax : Axes) (s : String) : (ax.set_ylabel s).ylabel = some s := rfl

theorem plot_homotopy_ok (colors : List String) (ppath : PyArr) (xpaths : List PyArr)
    (rz cz : Option (List ℚ)) (equal : Bool) (axs? : Option (Axes × Axes))
    (b0 b1 : Axes)
    (hds : drawSolutions ppath (afterRefs axs? ppath rz cz).1
        (afterRefs axs? ppath rz cz).2 xpaths = Except.ok (b0, b1)) :
    plot_homotopy colors ppath xpaths rz cz equal axs? =
      ⟨((if equal then b0.set_aspect "equal" else b0).set_xlabel
          "Solution (Real)").set_ylabel "Parameter",
       (if equal then b1.set_aspect "equal" else b1).set_xlabel
          "Solution (Imaginary)",
       axs?.isNone, false⟩ := by
  simp only [plot_homotopy]
  rw [hds]

theorem plot_homotopy_err (colors : List String) (ppath : PyArr) (xpaths : List PyArr)
    (rz cz : Option (List ℚ)) (equal : Bool) (axs? : Option (Axes × Axes))
    (s : Axes × Axes)
    (hds : drawSolutions ppath (afterRefs axs? ppath rz cz).1
        (afterRefs axs? ppath rz cz).2 xpaths = Except.error s) :
    plot_homotopy colors ppath xpaths rz cz equal axs? = ⟨s.1, s.2, axs?.isNone, true⟩ := by
  simp only [plot_homotopy]
  rw [hds]

/-- C2: for every call on in-contract data (a real-valued parameter array
`ppath` and complex solution arrays `xpaths`), the call completes and
exactly one solution curve per entry of `xpaths` is appended to each
panel after the reference curves: on panel 1 its x-values are the real
parts of that path, on panel 2 its imaginary parts, and on both panels
its y-values are `ppath`. -/
theorem C2_theorem (colors : List String) (ps : List ℚ) (xpl : List (List Cx))
    (rz cz : Option (List ℚ)) (equal : Bool) (axs? : Option (Axes × Axes)) :
    (plot_homotopy colors (PyArr.nparray (ps.map fun r => (r, 0)))
        (xpl.map PyArr.nparray) rz cz equal axs?).err = false
    ∧ (plot_homotopy colors (PyArr.nparray (ps.map fun r => (r, 0)))
        (xpl.map PyArr.nparray) rz cz equal axs?).axs0.elems
      = (afterRefs axs? (PyArr.nparray (ps.map fun r => (r, 0))) rz cz).1.elems
        ++ xpl.map (fun xp => Elem.line (xp.map Prod.fst) ps [])
    ∧ (plot_homotopy colors (PyArr.nparray (ps.map fun r => (r, 0)))
        (xpl.map PyArr.nparray) rz cz equal axs?).axs1.elems
      = (afterRefs axs? (PyArr.nparray (ps.map fun r => (r, 0))) rz cz).2.elems
        ++ xpl.map (fun xp => Elem.line (xp.map Prod.snd) ps []) := by
  have hmap : (List.map (fun r => ((r : ℚ), (0 : ℚ))) ps).map Prod.fst = ps := by
    induction ps with
    | nil => rfl
    | cons a l ih => simp [ih]
  obtain ⟨b0, b1, hds, h0, h1⟩ :=
    drawSolutions_nparray (ps.map fun r => (r, 0)) xpl
      (afterRefs axs? (PyArr.nparray (ps.map fun r => (r, 0))) rz cz).1
      (afterRefs axs? (PyArr.nparray (ps.map fun r => (r, 0))) rz cz).2
  rw [hmap] at h0 h1
  rw [plot_homotopy_ok colors _ _ rz cz equal axs? b0 b1 hds]
  refine ⟨rfl, ?_, ?_⟩
  · cases equal <;>
      simp [Axes.set_ylabel_elems, Axes.set_xlabel_elems, Axes.set_aspect_elems, h0]
  · cases equal <;>
      simp [Axes.set_xlabel_elems, Axes.set_aspect_elems, h1]

/-- C3 counterexample: the claim's literal call passes plain Python lists
for `ppath` and the solution path; lists have no `.real`/`.imag`
attribute, so the first loop iteration raises `AttributeError` and no
solution curve is drawn on either panel — the stated pairs are not
drawn. -/
theorem C3_counterexample :
    (plot_homotopy [] (PyArr.pylist [(0, 0), (1, 0), (2, 0)])
        [PyArr.pylist [(1, 1), (2, 2), (3, 3)]] none none true none).err = true
    ∧ (plot_homotopy [] (PyArr.pylist [(0, 0), (1, 0), (2, 0)])
        [PyArr.pylist [(1, 1), (2, 2), (3, 3)]] none none true none).axs0.elems = []
    ∧ (plot_homotopy [] (PyArr.pylist [(0, 0), (1, 0), (2, 0)])
        [PyArr.pylist [(1, 1), (2, 2), (3, 3)]] none none true none).axs1.elems = [] := by
  decide

/-- C3 (amended): the scenario with array-valued arguments, i.e.
`plot_homotopy(np.asarray([0,1,2]), [np.asarray([1+1j, 2+2j, 3+3j])])`,
completes and draws on panel 1 the (x, y) pairs (1,0),(2,1),(3,2) and on
panel 2 the pairs (1,0),(2,1),(3,2). -/
theorem C3_theorem :
    (plot_homotopy [] (PyArr.nparray [(0, 0), (1, 0), (2, 0)])
        [PyArr.nparray [(1, 1), (2, 2), (3, 3)]] none none true none).err = false
    ∧ (plot_homotopy [] (PyArr.nparray [(0, 0), (1, 0), (2, 0)])
        [PyArr.nparray [(1, 1), (2, 2), (3, 3)]] none none true none).axs0.elems
      = [Elem.line [1, 2, 3] [0, 1, 2] []]
    ∧ (plot_homotopy [] (PyArr.nparray [(0, 0), (1, 0), (2, 0)])
        [PyArr.nparray [(1, 1), (2, 2), (3, 3)]] none none true none).axs1.elems
      = [Elem.line [1, 2, 3] [0, 1, 2] []] := by
  decide

/-- C6: for every call of `plot_homotopy` that completes without an
exception, `equal = true` sets both panels' aspect to 1:1 (`"equal"`),
and `equal = false` leaves both panels' aspect unmodified from its
initial value (the library default `none` on fresh panels). -/
theorem C6_theorem (colors : List String) (ppath : PyArr) (xpaths : List PyArr)
    (rz cz : Option (List ℚ)) (equal : Bool) (axs? : Option (Axes × Axes))
    (h : (plot_homotopy colors ppath xpaths rz cz equal axs?).err = false) :
    (plot_homotopy colors ppath xpaths rz cz equal axs?).axs0.aspect
      = (if equal then some "equal" else (initAxs axs?).1.aspect)
    ∧ (plot_homotopy colors ppath xpaths rz cz equal axs?).axs1.aspect
      = (if equal then some "equal" else (initAxs axs?).2.aspect) := by
  cases hds : drawSolutions ppath (afterRefs axs? ppath rz cz).1
      (afterRefs axs? ppath rz cz).2 xpaths with
  | error s =>
    rw [plot_homotopy_err colors ppath xpaths rz cz equal axs? s hds] at h
    exact absurd h (by simp)
  | ok s =>
    obtain ⟨b0, b1⟩ := s
    rw [plot_homotopy_ok colors ppath xpaths rz cz equal axs? b0 b1 hds]
    obtain ⟨e0, e1, _, _, _, _⟩ := drawSolutions_ok_fields ppath xpaths _ _ b0 b1 hds
    obtain ⟨g0, g1, _, _, _, _⟩ := afterRefs_fields axs? ppath rz cz
    cases equal <;>
      simp [Axes.set_ylabel_aspect, Axes.set_xlabel_aspect, Axes.set_aspect_aspect,
            e0, e1, g0, g1]

/-- C6 witness: a concrete completing call with `equal = true`. -/
theorem C6_witness :
    (plot_homotopy [] (PyArr.nparray [(0, 0)]) [] none none true none).err = false
    ∧ ((plot_homotopy [] (PyArr.nparray [(0, 0)]) [] none none true none).axs0.aspect
        = (if true then some "equal" else (initAxs (none : Option (Axes × Axes))).1.aspect)
      ∧ (plot_homotopy [] (PyArr.nparray [(0, 0)]) [] none none true none).axs1.aspect
        = (if true then some "equal" else (initAxs (none : Option (Axes × Axes))).2.aspect)) :=
  ⟨by decide, C6_theorem [] (PyArr.nparray [(0, 0)]) [] none none true none (by decide)⟩

/-- C7: every call of `plot_homotopy` that completes sets panel 1's
x-label to "Solution (Real)", panel 2's x-label to "Solution (Imaginary)"
and panel 1's y-label to "Parameter", while panel 2's y-label is left
untouched (so fresh panel 2 stays unlabeled). -/
theorem C7_theorem (colors : List String) (ppath : PyArr) (xpaths : List PyArr)
    (rz cz : Option (List ℚ)) (equal : Bool) (axs? : Option (Axes × Axes))
    (h : (plot_homotopy colors ppath xpaths rz cz equal axs?).err = false) :
    (plot_homotopy colors ppath xpaths rz cz equal axs?).axs0.xlabel
      = some "Solution (Real)"
    ∧ (plot_homotopy colors ppath xpaths rz cz equal axs?).axs1.xlabel
      = some "Solution (Imaginary)"
    ∧ (plot_homotopy colors ppath xpaths rz cz equal axs?).axs0.ylabel
      = some "Parameter"
    ∧ (plot_homotopy colors ppath xpaths rz cz equal axs?).axs1.ylabel
      = (initAxs axs?).2.ylabel := by
  cases hds : drawSolutions ppath (afterRefs axs? ppath rz cz).1
      (afterRefs axs? ppath rz cz).2 xpaths with
  | error s =>
    rw [plot_homotopy_err colors ppath xpaths rz cz equal axs? s hds] at h
    exact absurd h (by simp)
  | ok s =>
    obtain ⟨b0, b1⟩ := s
    rw [plot_homotopy_ok colors ppath xpaths rz cz equal axs? b0 b1 hds]
    obtain ⟨_, _, _, _, _, e5⟩ := drawSolutions_ok_fields ppath xpaths _ _ b0 b1 hds
    obtain ⟨_, _, _, _, _, g5⟩ := afterRefs_fields axs? ppath rz cz
    refine ⟨rfl, rfl, rfl, ?_⟩
    cases equal <;>
      simp [Axes.set_xlabel_ylabel, Axes.set_aspect_ylabel, e5, g5]

/-- C7 witness: a concrete completing call. -/
theorem C7_witness :
    (plot_homotopy [] (PyArr.nparray [(0, 0)]) [] none none true none).err = false
    ∧ ((plot_homotopy [] (PyArr.nparray [(0, 0)]) [] none none true none).axs0.xlabel
        = some "Solution (Real)"
      ∧ (plot_homotopy [] (PyArr.nparray [(0, 0)]) [] none none true none).axs1.xlabel
        = some "Solution (Imaginary)"
      ∧ (plot_homotopy [] (PyArr.nparray [(0, 0)]) [] none none true none).axs0.ylabel
        = some "Parameter"
      ∧ (plot_homotopy [] (PyArr.nparray [(0, 0)]) [] none none true none).axs1.ylabel
        = (initAxs (none : Option (Axes × Axes))).2.ylabel) :=
  ⟨by decide, C7_theorem [] (PyArr.nparray [(0, 0)]) [] none none true none (by decide)⟩

/-- C8 counterexample: the claim as stated fails when `ppath` is a plain
Python list but `xpaths` is empty: the loop body never runs, no attribute
is accessed, and the call completes without raising `AttributeError`. -/
theorem C8_counterexample :
    (plot_homotopy [] (PyArr.pylist [(0, 0)]) [] none none true none).err = false := by
  decide

/-- C8 (amended): if the loop reaches a faulty attribute access — either
`ppath` lacks `.real` and `xpaths` is nonempty, or some entry of `xpaths`
lacks the attributes — then `plot_homotopy` raises `AttributeError` at
the first such iteration: the reference curves and the solution curves of
the earlier entries are already drawn, and no solution curve at or after
that point is drawn on either panel. -/
theorem C8_theorem (colors : List String) (l : List Cx) (rz cz : Option (List ℚ))
    (equal : Bool) (axs? : Option (Axes × Axes)) :
    (∀ (xp : PyArr) (rest : List PyArr),
      (plot_homotopy colors (PyArr.pylist l) (xp :: rest) rz cz equal axs?).err = true
      ∧ (plot_homotopy colors (PyArr.pylist l) (xp :: rest) rz cz equal axs?).axs0.elems
          = (afterRefs axs? (PyArr.pylist l) rz cz).1.elems
      ∧ (plot_homotopy colors (PyArr.pylist l) (xp :: rest) rz cz equal axs?).axs1.elems
          = (afterRefs axs? (PyArr.pylist l) rz cz).2.elems)
    ∧ (∀ (pre : List (List Cx)) (b : List Cx) (rest : List PyArr),
      (plot_homotopy colors (PyArr.nparray l)
          (pre.map PyArr.nparray ++ PyArr.pylist b :: rest) rz cz equal axs?).err = true
      ∧ (plot_homotopy colors (PyArr.nparray l)
          (pre.map PyArr.nparray ++ PyArr.pylist b :: rest) rz cz equal axs?).axs0.elems
        = (afterRefs axs? (PyArr.nparray l) rz cz).1.elems
          ++ pre.map (fun xs => Elem.line (xs.map Prod.fst) (l.map Prod.fst) [])
      ∧ (plot_homotopy colors (PyArr.nparray l)
          (pre.map PyArr.nparray ++ PyArr.pylist b :: rest) rz cz equal axs?).axs1.elems
        = (afterRefs axs? (PyArr.nparray l) rz cz).2.elems
          ++ pre.map (fun xs => Elem.line (xs.map Prod.snd) (l.map Prod.fst) [])) := by
  constructor
  · intro xp rest
    have hds := drawSolutions_pylist_pp l xp rest
      (afterRefs axs? (PyArr.pylist l) rz cz).1 (afterRefs axs? (PyArr.pylist l) rz cz).2
    rw [plot_homotopy_err colors (PyArr.pylist l) (xp :: rest) rz cz equal axs? _ hds]
    exact ⟨rfl, rfl, rfl⟩
  · intro pre b rest
    obtain ⟨b0, b1, hds, h0, h1⟩ := drawSolutions_bad_entry l pre b rest
      (afterRefs axs? (PyArr.nparray l) rz cz).1 (afterRefs axs? (PyArr.nparray l) rz cz).2
    rw [plot_homotopy_err colors (PyArr.nparray l)
      (pre.map PyArr.nparray ++ PyArr.pylist b :: rest) rz cz equal axs? (b0, b1) hds]
    exact ⟨rfl, h0, h1⟩

/-- C9: the solution curves use only the real part of `ppath`: two calls
with `rzero`/`czero` omitted, identical `xpaths`, and `ppath` arrays with
equal real parts (differing only in imaginary parts) produce identical
results. -/
theorem C9_theorem (colors : List String) (l1 l2 : List Cx) (xpaths : List PyArr)
    (equal : Bool) (axs? : Option (Axes × Axes))
    (h : l1.map Prod.fst = l2.map Prod.fst) :
    plot_homotopy colors (PyArr.nparray l1) xpaths none none equal axs?
      = plot_homotopy colors (PyArr.nparray l2) xpaths none none equal axs? := by
  have hreal : (PyArr.nparray l1).real = (PyArr.nparray l2).real := by
    simp [PyArr.real, h]
  have hA : ∀ p : PyArr, afterRefs axs? p none none = initAxs axs? := fun p => rfl
  simp only [plot_homotopy, hA]
  rw [drawSolutions_congr (PyArr.nparray l1) (PyArr.nparray l2) hreal xpaths
    (initAxs axs?).1 (initAxs axs?).2]

/-- C9 witness: two parameter arrays sharing real parts but with distinct
imaginary parts give identical results. -/
theorem C9_witness :
    List.map Prod.fst [((1 : ℚ), (5 : ℚ))] = List.map Prod.fst [((1 : ℚ), (7 : ℚ))]
    ∧ plot_homotopy [] (PyArr.nparray [(1, 5)]) [PyArr.nparray [(2, 3)]] none none true none
      = plot_homotopy [] (PyArr.nparray [(1, 7)]) [PyArr.nparray [(2, 3)]] none none true none :=
  ⟨by decide,
   C9_theorem [] [(1, 5)] [(1, 7)] [PyArr.nparray [(2, 3)]] true none (by decide)⟩
